import Mathlib

/-!
Verification of the dashboard data aggregator (`scripts/dashboard-backend.py`).

Modelling conventions, used throughout:
* Timestamps are integers (seconds); `datetime.now()` at a given point of a
  run is passed in as an explicit `now : Int` parameter.  `timedelta(hours=24)`
  is `86400`, `timedelta(days=7)` is `604800`, minutes are `60`.
* Currency amounts from the records API are modelled as `Int`; spreadsheet /
  fallback amounts, which the source manipulates as Python floats with exact
  decimal literals, are modelled as `ℚ`.
* Python text is modelled as `String` where only equality matters, and as
  `List Char` where the source slices or searches it (`[:100]`, `in`,
  `.lower()`), so that character-level operations are exact.
* The outcome of external I/O (HTTP responses, token files, the board file,
  the random coin) is passed in as an explicit environment value; the body of
  each fetcher is translated from the source line by line against that
  environment.
-/

/-! ### Deal-revenue fetcher (`get_airtable_deal_revenue`) -/

/-- Outcome of `datetime.fromisoformat(contract_date_str.replace('Z', '+00:00'))`
on one record's `In Contract` field:
* `fail`   — the call raises (unparseable string, or a non-string value whose
  `.replace` raises);
* `naive t` — an offset-naive datetime with timestamp `t`; comparison with the
  offset-naive cutoff succeeds;
* `aware t` — an offset-aware datetime (the string carried a UTC offset, e.g.
  a trailing `Z`) with timestamp `t`; comparing it with the offset-naive
  cutoff raises `TypeError`, which the bare `except: pass` swallows. -/
inductive DateParse where
  | fail : DateParse
  | naive : Int → DateParse
  | aware : Int → DateParse
deriving DecidableEq

/-- One record of the records API response.  `revenue` is
`fields.get('Revenue', 0)` (a missing field is already the default `0`);
`inContract` is `none` when `fields.get('In Contract')` is absent or falsy
(empty string), otherwise the parse outcome of the date string. -/
structure DealRecord where
  revenue : Int
  inContract : Option DateParse
deriving DecidableEq

/-- The dictionary returned by `get_airtable_deal_revenue`. -/
structure DealResult where
  total_revenue : Int
  deal_count : Nat
  last_24h : Int
deriving DecidableEq

/-- The hardcoded fallback of `get_airtable_deal_revenue` (lines 94 and 98). -/
def dealFallback : DealResult :=
  { total_revenue := 162000, deal_count := 18, last_24h := 0 }

/-- The `for record in records:` loop (lines 71-85), threading the two
accumulators `total_revenue` and `last_24h_revenue`.  `if revenue:` is Python
truthiness of a number, i.e. `revenue ≠ 0`; the 24h branch adds `revenue`
only when the parsed date is offset-naive and `contract_date > cutoff_time`,
since `fail` and `aware` both end in the swallowed `except`. -/
def dealLoop (cutoff : Int) : List DealRecord → Int → Int → Int × Int
  | [], total, last24 => (total, last24)
  | r :: rs, total, last24 =>
    let total := if r.revenue ≠ 0 then total + r.revenue else total
    let last24 :=
      match r.inContract with
      | none => last24
      | some DateParse.fail => last24
      | some (DateParse.aware _) => last24
      | some (DateParse.naive t) => if cutoff < t then last24 + r.revenue else last24
    dealLoop cutoff rs total last24

/-- The HTTP-200 body of `get_airtable_deal_revenue` (lines 62-91):
`cutoff_time = now - 24h`, run the loop, `deal_count = len(records)`. -/
def processDealRecords (now : Int) (records : List DealRecord) : DealResult :=
  let cutoff := now - 86400
  let acc := dealLoop cutoff records 0 0
  { total_revenue := acc.1, deal_count := records.length, last_24h := acc.2 }

/-- External world of one run of `get_airtable_deal_revenue`:
* `noToken`   — `'airtable_token' not in credentials` (line 47);
* `exception` — any exception anywhere in the `try` (line 96);
* `response status records` — `requests.get` returned `status` with the given
  parsed `records` list. -/
inductive AirtableEnv where
  | noToken : AirtableEnv
  | exception : AirtableEnv
  | response : Nat → List DealRecord → AirtableEnv
deriving DecidableEq

/-- `get_airtable_deal_revenue` (lines 43-98). -/
def get_airtable_deal_revenue (now : Int) : AirtableEnv → DealResult
  | AirtableEnv.noToken => { total_revenue := 0, deal_count := 0, last_24h := 0 }
  | AirtableEnv.exception => dealFallback
  | AirtableEnv.response status records =>
    if status = 200 then processDealRecords now records else dealFallback

/-- Sum of the `Revenue` fields of a record list. -/
def sumRevenue (records : List DealRecord) : Int :=
  (records.map DealRecord.revenue).sum

/-- The predicate the code's 24h bucket actually uses: the contract date is
present, parses offset-naive, and is strictly after the cutoff. -/
def codeLast24Pred (cutoff : Int) (r : DealRecord) : Bool :=
  match r.inContract with
  | some (DateParse.naive t) => cutoff < t
  | _ => false

/-- Declarative form of the code's 24h bucket: the sum of `Revenue` over
exactly the records satisfying `codeLast24Pred`. -/
def codeLast24 (cutoff : Int) (records : List DealRecord) : Int :=
  sumRevenue (records.filter (codeLast24Pred cutoff))

/-- Modelled from the spec's words, for comparison with the code: a record
counts toward `last_24h` when its contract date parses (naive or aware) and
falls within 24 hours of fetch time. -/
def specLast24Pred (now : Int) (r : DealRecord) : Bool :=
  match r.inContract with
  | some (DateParse.naive t) => now - 86400 ≤ t && t ≤ now
  | some (DateParse.aware t) => now - 86400 ≤ t && t ≤ now
  | _ => false

/-- The spec's 24h aggregate: sum of `Revenue` over exactly the records whose
contract date parses and falls within 24 hours of fetch time. -/
def specLast24 (now : Int) (records : List DealRecord) : Int :=
  sumRevenue (records.filter (specLast24Pred now))

/-! ### Task loader (`get_real_tasks`, lines 128-173) and assignment
heuristic (`get_assignee_for_task`, lines 175-187) -/

/-- One entry of a board task's `activity` list: only its optional `date`
field is relevant (`.get('date', task['created'])`, line 153). -/
structure ActivityEntry where
  date : Option String
deriving DecidableEq

/-- One task of the parsed board file.  `title` and `description` are
character lists because the source slices and searches them; `priority` is
`none` when the key is absent (`task.get('priority', 'medium')`);
`archived` is `task.get('archived', False)`; `activity` is `none` when the
`activity` key is absent (the default `[{}]` then applies). -/
structure BoardTask where
  id : String
  title : List Char
  description : List Char
  column : String
  priority : Option String
  archived : Bool
  created : String
  activity : Option (List ActivityEntry)
deriving DecidableEq

/-- A task of the dashboard snapshot (the dict built at lines 145-154). -/
structure DashTask where
  id : String
  title : List Char
  description : List Char
  column : String
  priority : String
  assignee : String
  created : String
  lastUpdate : String
deriving DecidableEq

/-- The fixed `column_mapping` dict with its `.get(_, 'backlog')` default
(lines 138-143, 149). -/
def column_mapping (c : String) : String :=
  if c = "backlog" then "backlog"
  else if c = "in-progress" then "in-progress"
  else if c = "recurring" then "backlog"
  else if c = "done" then "done"
  else "backlog"

/-- The Python substring test `word in text` on case-folded character
lists: true iff `word` occurs contiguously in `text`. -/
def containsWord (word : List Char) : List Char → Bool
  | [] => word.isEmpty
  | c :: rest => word.isPrefixOf (c :: rest) || containsWord word rest

/-- Keyword list of the real-estate branch (line 180). -/
def realEstateWords : List (List Char) :=
  ["zillow".toList, "real estate".toList, "property".toList, "section 8".toList]

/-- Keyword list of the content branch (line 182). -/
def contentWords : List (List Char) :=
  ["content".toList, "write".toList, "post".toList, "social".toList,
    "twitter".toList, "instagram".toList]

/-- Keyword list of the admin branch (line 184). -/
def adminWords : List (List Char) :=
  ["asana".toList, "admin".toList, "manage".toList, "organize".toList,
    "pipeline".toList]

/-- `get_assignee_for_task` (lines 175-187): case-fold title and description,
then three ordered `any(word in ...)` membership checks, defaulting to
`'Arthur'`. -/
def get_assignee_for_task (task : BoardTask) : String :=
  let title_lower := task.title.map Char.toLower
  let description_lower := task.description.map Char.toLower
  if realEstateWords.any (fun w => containsWord w title_lower || containsWord w description_lower) then
    "Zillow Bot"
  else if contentWords.any (fun w => containsWord w title_lower || containsWord w description_lower) then
    "Ghost"
  else if adminWords.any (fun w => containsWord w title_lower || containsWord w description_lower) then
    "Admin"
  else
    "Arthur"

/-- The dashboard-task dict built for one non-archived board task
(lines 145-154), given the already-computed `lastUpdate` value. -/
def mkDashTask (task : BoardTask) (lastUpdate : String) : DashTask :=
  { id := task.id
    title := task.title
    description :=
      if task.description.length > 100 then task.description.take 100 ++ "...".toList
      else task.description
    column := column_mapping task.column
    priority := task.priority.getD "medium"
    assignee := get_assignee_for_task task
    created := task.created
    lastUpdate := lastUpdate }

/-- Processing of one non-archived task, including the `lastUpdate`
expression `task.get('activity', [{}])[-1].get('date', task['created'])`
(line 153): an absent `activity` key yields the default `[{}]`, whose last
element has no `date`, so `created` is used; a present non-empty list yields
its last entry's `date` (or `created` when that entry has none); a present
EMPTY list makes `[-1]` raise `IndexError`, modelled as `Except.error`. -/
def processTask (task : BoardTask) : Except Unit DashTask :=
  match task.activity with
  | none => Except.ok (mkDashTask task task.created)
  | some [] => Except.error ()
  | some (a :: rest) =>
    Except.ok (mkDashTask task (((a :: rest).getLast (List.cons_ne_nil a rest)).date.getD task.created))

/-- The `for task in board_data.get('tasks', []):` loop (lines 134-155):
archived tasks are skipped, each non-archived task is transformed, and any
exception aborts the whole loop (it is inside the function's single `try`). -/
def loadTasks : List BoardTask → Except Unit (List DashTask)
  | [] => Except.ok []
  | task :: rest =>
    if task.archived then loadTasks rest
    else
      match processTask task with
      | Except.error e => Except.error e
      | Except.ok d =>
        match loadTasks rest with
        | Except.error e => Except.error e
        | Except.ok ds => Except.ok (d :: ds)

/-- The hardcoded `netlify_project` task appended after the loop
(lines 157-168). -/
def netlifyTask : DashTask :=
  { id := "task-netlify-001"
    title := "Off-Market Deals Website".toList
    description :=
      "Funnel website deployed to Netlify for lead generation and property acquisition".toList
    column := "done"
    priority := "high"
    assignee := "Arthur"
    created := "2026-02-08"
    lastUpdate := "2026-02-08T15:30:00" }

/-- State of the board file at `~/.openclaw/workspace/board/board-data.json`:
either unreadable/unparseable (`open` or `json.load` raises) or parsed into
a task list (`board_data.get('tasks', [])`). -/
inductive BoardFile where
  | unreadable : BoardFile
  | parsed : List BoardTask → BoardFile
deriving DecidableEq

/-- `get_real_tasks` (lines 128-173): on success the transformed tasks plus
the appended `netlify_project`; any exception (unreadable file, or an error
inside the loop) falls to the `except` handler returning `[]`. -/
def get_real_tasks : BoardFile → List DashTask
  | BoardFile.unreadable => []
  | BoardFile.parsed ts =>
    match loadTasks ts with
    | Except.ok l => l ++ [netlifyTask]
    | Except.error _ => []

/-! ### Financial-transactions fetcher (`get_tiller_financial_data`,
lines 189-247) and its fallback (`get_fallback_financial_data`,
lines 249-281) -/

/-- Outcome of `float(row[2]) if row[2] else 0` on one row's amount cell:
* `empty` — the cell is falsy (empty string), amount `0`;
* `bad`   — the cell is non-empty but `float` raises `ValueError`
  (the row is skipped by the per-row `except: continue`);
* `val a` — the cell parses to the number `a`. -/
inductive AmountCell where
  | empty : AmountCell
  | bad : AmountCell
  | val : ℚ → AmountCell
deriving DecidableEq

/-- One spreadsheet row.  `ncols` is `len(row)`; `dateStr` is the raw cell
`row[0]`; `dateParse` is the outcome of
`datetime.strptime(date_str, '%m/%d/%Y')` (`none` when it raises, otherwise
the parsed timestamp); `description`, `account`, `category` are the cells
`row[1]`, `row[3]`, `row[4]` (always present once `ncols ≥ 6`). -/
structure SheetRow where
  ncols : Nat
  dateStr : String
  dateParse : Option Int
  amount : AmountCell
  description : String
  account : String
  category : String
deriving DecidableEq

/-- One transaction dict built at lines 226-233.  The `timestamp` field is
`transaction_date.isoformat()`; since every such string has the fixed form
`YYYY-MM-DDT00:00:00`, Python's lexicographic comparison of these strings
coincides with chronological order, so it is modelled as the parsed
timestamp itself. -/
structure Txn where
  date : String
  amount : ℚ
  description : String
  account : String
  category : String
  timestamp : Int
deriving DecidableEq

/-- Per-row parsing and the 7-day filter (lines 214-235): skip the row
unless it has ≥ 6 columns, the amount and date parse, and
`transaction_date > cutoff_date`. -/
def parseTxnRow (cutoff : Int) (row : SheetRow) : Option Txn :=
  if 6 ≤ row.ncols then
    match row.amount, row.dateParse with
    | AmountCell.bad, _ => none
    | _, none => none
    | AmountCell.empty, some t =>
      if cutoff < t then
        some { date := row.dateStr, amount := 0, description := row.description,
               account := row.account, category := row.category, timestamp := t }
      else none
    | AmountCell.val a, some t =>
      if cutoff < t then
        some { date := row.dateStr, amount := a, description := row.description,
               account := row.account, category := row.category, timestamp := t }
      else none
  else none

/-- The order used by `transactions.sort(key=lambda x: x['timestamp'],
reverse=True)`: descending by timestamp. -/
def byTimestampDesc (a b : Txn) : Prop := b.timestamp ≤ a.timestamp

instance : DecidableRel byTimestampDesc := fun a b => Int.decLe b.timestamp a.timestamp

instance : IsTotal Txn byTimestampDesc :=
  ⟨fun a b => Int.le_total b.timestamp a.timestamp⟩

instance : IsTrans Txn byTimestampDesc :=
  ⟨fun _ _ _ h1 h2 => le_trans h2 h1⟩

/-- The HTTP-200 body of `get_tiller_financial_data` (lines 208-240): parse
and filter the rows, stable-sort descending by timestamp, keep the first 50.
Python's `list.sort` with `reverse=True` is the unique stable descending
sort (ties keep row order), which is exactly
`List.insertionSort byTimestampDesc`. -/
def tillerTransactions (now : Int) (rows : List SheetRow) : List Txn :=
  (List.insertionSort byTimestampDesc (rows.filterMap (parseTxnRow (now - 604800)))).take 50

/-- One entry of the fallback `sample_charges` list (lines 255-262), after
the timestamp loop at lines 272-275. -/
structure ChargeEntry where
  amount : ℚ
  description : String
  card : String
  category : String
  timestamp : Int
deriving DecidableEq

/-- One entry of the fallback `sample_revenue` list (lines 264-269), after
the timestamp loop at lines 277-279. -/
structure RevenueEntry where
  amount : ℚ
  description : String
  source : String
  timestamp : Int
deriving DecidableEq

/-- The value returned by the financial fetcher: the live path returns a
dict with a single `transactions` key; the fallback path returns `charges`,
`revenue` and their concatenation `transactions` (a heterogeneous Python
list, modelled as a list of a sum type). -/
inductive FinancialData where
  | live : List Txn → FinancialData
  | fallback : List ChargeEntry → List RevenueEntry →
      List (ChargeEntry ⊕ RevenueEntry) → FinancialData
deriving DecidableEq

/-- `get_fallback_financial_data` (lines 249-281): the six sample charges
with timestamps `now - 2h·i` and the four sample revenues with timestamps
`now - 3h·i`. -/
def get_fallback_financial_data (now : Int) : FinancialData :=
  let charges : List ChargeEntry :=
    [ { amount := -87.50, description := "Uber to Carlsbad Office",
        card := "Chase Sapphire", category := "Transportation", timestamp := now },
      { amount := -2745.00, description := "Office Rent - LL Ventures",
        card := "Business Platinum", category := "Business", timestamp := now - 7200 },
      { amount := -125.99, description := "Adobe Creative Suite",
        card := "Chase Sapphire", category := "Software", timestamp := now - 14400 },
      { amount := -1450.00, description := "Legal Fees - Andy Antiles Case",
        card := "Business Platinum", category := "Legal", timestamp := now - 21600 },
      { amount := -67.99, description := "Tesla Supercharging",
        card := "Chase Sapphire", category := "Transportation", timestamp := now - 28800 },
      { amount := -3200.00, description := "Marketing Campaign - Facebook Ads",
        card := "Business Platinum", category := "Marketing", timestamp := now - 36000 } ]
  let revenue : List RevenueEntry :=
    [ { amount := 8500.00, description := "LL Ventures Deal - Detroit Property",
        source := "Business Account", timestamp := now },
      { amount := 1200.00, description := "Consulting Payment - BlackBox Alchemist",
        source := "Chase Business", timestamp := now - 10800 },
      { amount := 850.00, description := "Investment Dividend - Schwab Portfolio",
        source := "Schwab Account", timestamp := now - 21600 },
      { amount := 2100.00, description := "Course Revenue - Graystone Settlement",
        source := "Business Account", timestamp := now - 32400 } ]
  FinancialData.fallback charges revenue
    (charges.map Sum.inl ++ revenue.map Sum.inr)

/-- External world of one run of `get_tiller_financial_data`:
* `noToken`   — the token helper printed nothing (line 195);
* `exception` — any exception in the `try` (line 245);
* `response status rows` — the spreadsheet API returned `status` with the
  given parsed `values` rows. -/
inductive TillerEnv where
  | noToken : TillerEnv
  | exception : TillerEnv
  | response : Nat → List SheetRow → TillerEnv
deriving DecidableEq

/-- `get_tiller_financial_data` (lines 189-247). -/
def get_tiller_financial_data (now : Int) : TillerEnv → FinancialData
  | TillerEnv.noToken => get_fallback_financial_data now
  | TillerEnv.exception => get_fallback_financial_data now
  | TillerEnv.response status rows =>
    if status = 200 then FinancialData.live (tillerTransactions now rows)
    else get_fallback_financial_data now

/-! ### Static stats (`get_ghl_sms_stats`, `get_arthur_email_stats`),
agent-status heuristics (lines 283-346), activity synthesizer
(`get_live_activities`, lines 348-380) and the snapshot assembler
(`generate_dashboard_data`, lines 382-411) -/

/-- The dict shape shared by the SMS and email stats. -/
structure Stats where
  today : Nat
  this_week : Nat
  this_month : Nat
deriving DecidableEq

/-- `get_ghl_sms_stats` (lines 100-112): constant estimated data. -/
def get_ghl_sms_stats : Stats :=
  { today := 50, this_week := 350, this_month := 1500 }

/-- `get_arthur_email_stats` (lines 114-126): constant estimated data. -/
def get_arthur_email_stats : Stats :=
  { today := 8, this_week := 45, this_month := 180 }

/-- `check_zillow_monitor` (lines 317-322): active during business hours,
`6 <= hour <= 18`, where `hour` is the current local hour. -/
def check_zillow_monitor (hour : Nat) : Bool :=
  6 ≤ hour && hour ≤ 18

/-- `check_asana_activity` (lines 324-340), abstracted over its outcome:
the function returns `true` iff the recent-responses query succeeded and
found at least one record; every failure path returns `false`.  The
parameter is that outcome. -/
def check_asana_activity (recentResponses : Bool) : Bool :=
  recentResponses

/-- `check_content_schedule` (lines 342-346): `random.random() > 0.7`,
abstracted over the coin's outcome. -/
def check_content_schedule (coin : Bool) : Bool :=
  coin

/-- State of one agent in the `agents` dict. -/
structure AgentState where
  active : Bool
  task : String
deriving DecidableEq

/-- The four fixed agents. -/
structure Agents where
  arthur : AgentState
  zillow_bot : AgentState
  ghost : AgentState
  admin : AgentState
deriving DecidableEq

/-- `get_agent_status` (lines 283-315): defaults overridden by the three
checks; no exception can escape the checks as modelled, so the `except`
at line 312 is dead. -/
def get_agent_status (hour : Nat) (recentResponses coin : Bool) : Agents :=
  let zillowActive := check_zillow_monitor hour
  let asanaActive := check_asana_activity recentResponses
  let contentActive := check_content_schedule coin
  { arthur := { active := true, task := "Coordinating Operations" }
    zillow_bot :=
      { active := zillowActive
        task := if zillowActive then "Scanning Detroit Properties" else "Monitoring New Listings" }
    ghost :=
      { active := contentActive
        task := if contentActive then "Writing Social Content" else "Preparing Content Queue" }
    admin :=
      { active := asanaActive
        task := if asanaActive then "Processing New Responses" else "Managing Asana Pipeline" } }

/-- One entry of the activities list (lines 372-378).  The `description`
strings are reproduced without Python's thousands-separator number
formatting (`:,`), and the `time` field (`strftime('%I:%M %p')`, a pure
rendering of the timestamp) is omitted; neither affects any entry's
identity or order. -/
structure Activity where
  type : String
  description : String
  timestamp : Int
deriving DecidableEq

/-- `get_live_activities` (lines 348-380): the eleven entries in source
order.  Each `datetime.now()` call is modelled by the single `now` of the
run; the offsets are those of lines 359-369. -/
def get_live_activities (now : Int) (env : AirtableEnv) : List Activity :=
  let deal_data := get_airtable_deal_revenue now env
  let sms_data := get_ghl_sms_stats
  let email_data := get_arthur_email_stats
  [ { type := "REVENUE",
      description := "Deal Revenue Tracker: $" ++ toString deal_data.total_revenue ++
        " from " ++ toString deal_data.deal_count ++ " deals",
      timestamp := now },
    { type := "SMS",
      description := "SMS Operations: " ++ toString sms_data.today ++ " messages sent today",
      timestamp := now - 180 },
    { type := "EMAIL",
      description := "Arthur Email: " ++ toString email_data.today ++ " emails processed today",
      timestamp := now - 420 },
    { type := "SYSTEM",
      description := "Dashboard v2 updated with live Airtable integration",
      timestamp := now - 120 },
    { type := "COORD",
      description := "Arthur coordinating 4 active agents",
      timestamp := now - 300 },
    { type := "SCRAPE",
      description := "Zillow Bot found 2 new Section 8 listings",
      timestamp := now - 720 },
    { type := "ADMIN",
      description := "Admin updated 3 Asana tasks to pre-approval",
      timestamp := now - 1080 },
    { type := "FINANCIAL",
      description := "Processed $8,500 LL Ventures revenue",
      timestamp := now - 3600 },
    { type := "CONTENT",
      description := "Ghost generated Twitter thread draft",
      timestamp := now - 7200 },
    { type := "OUTREACH",
      description := "14% response rate on Detroit agent outreach",
      timestamp := now - 10800 },
    { type := "NETLIFY",
      description := "Off-Market Deals website deployed successfully",
      timestamp := now - 14400 } ]

/-- The snapshot written to `dashboard-data.json` (lines 391-402).
`lastUpdated` is `datetime.now().isoformat()` at assembly time; since
`isoformat` always yields a valid ISO-8601 string, the timestamp itself is
the semantic content and is modelled as an `Int`. -/
structure Dashboard where
  tasks : List DashTask
  financial : FinancialData
  agents : Agents
  activities : List Activity
  deal_revenue : DealResult
  sms_stats : Stats
  email_stats : Stats
  lastUpdated : Int
deriving DecidableEq

/-- `generate_dashboard_data` (lines 382-411).  The `datetime.now()` calls
of a run are nondecreasing; `now` stands for the fetch-time calls and
`nowLast` for the final call at line 401. -/
def generate_dashboard_data (board : BoardFile) (deal : AirtableEnv) (tiller : TillerEnv)
    (hour : Nat) (recentResponses coin : Bool) (now nowLast : Int) : Dashboard :=
  { tasks := get_real_tasks board
    financial := get_tiller_financial_data now tiller
    agents := get_agent_status hour recentResponses coin
    activities := get_live_activities now deal
    deal_revenue := get_airtable_deal_revenue now deal
    sms_stats := get_ghl_sms_stats
    email_stats := get_arthur_email_stats
    lastUpdated := nowLast }

/-! ### Concrete sample inputs used by witnesses and counterexamples -/

/-- The spec's example task: title "Write Section 8 listing post". -/
def sectionEightTask : BoardTask :=
  { id := "t-s8", title := "Write Section 8 listing post".toList, description := [],
    column := "backlog", priority := none, archived := false,
    created := "2026-01-01", activity := none }

/-- A well-formed task with a short description and no activity. -/
def sampleShortTask : BoardTask :=
  { id := "t1", title := "Call lender".toList, description := "short".toList,
    column := "backlog", priority := none, archived := false,
    created := "2026-01-01", activity := none }

/-- A non-archived task whose `activity` field is an empty list. -/
def emptyActivityTask : BoardTask :=
  { id := "t9", title := "Broken task".toList, description := [],
    column := "backlog", priority := none, archived := false,
    created := "2026-01-01", activity := some [] }

/-- Second well-formed sample task. -/
def sampleTaskB : BoardTask :=
  { id := "t2", title := "Send invoice".toList, description := "bill the client".toList,
    column := "in-progress", priority := some "high", archived := false,
    created := "2026-01-02", activity := none }

/-- Third well-formed sample task. -/
def sampleTaskC : BoardTask :=
  { id := "t3", title := "Plan week".toList, description := [],
    column := "recurring", priority := none, archived := false,
    created := "2026-01-03", activity := some [{ date := some "2026-01-05" }] }

/-- An archived sample task. -/
def sampleArchivedTask : BoardTask :=
  { id := "t4", title := "Old thing".toList, description := [],
    column := "done", priority := none, archived := true,
    created := "2026-01-04", activity := none }

/-- A board with exactly 3 non-archived tasks and 1 archived task. -/
def sampleBoardTasks : List BoardTask :=
  [sampleShortTask, sampleTaskB, sampleTaskC, sampleArchivedTask]

/-- The dashboard tasks produced from `sampleBoardTasks`. -/
def sampleDashTasks : List DashTask :=
  [mkDashTask sampleShortTask "2026-01-01", mkDashTask sampleTaskB "2026-01-02",
    mkDashTask sampleTaskC "2026-01-05"]

/-- A spreadsheet row that parses and passes the 7-day filter for `now = 0`. -/
def sampleRow : SheetRow :=
  { ncols := 6, dateStr := "10/11/2026", dateParse := some (-100),
    amount := AmountCell.val 5, description := "Coffee", account := "Checking",
    category := "Food" }

/-- A second row with the same parsed date as `sampleRow` (a timestamp tie). -/
def sampleRowTie : SheetRow :=
  { ncols := 6, dateStr := "10/11/2026", dateParse := some (-100),
    amount := AmountCell.val 7, description := "Tea", account := "Checking",
    category := "Food" }

/-- A row whose date lies 400 days in the future: `strptime` parses it and
it passes the `> cutoff` filter. -/
def futureRow : SheetRow :=
  { ncols := 6, dateStr := "11/15/2027", dateParse := some 34560000,
    amount := AmountCell.val 9, description := "Deposit", account := "Savings",
    category := "Income" }


/-! ### Helper lemmas -/

theorem dealLoop_eq (cutoff : Int) :
    ∀ (records : List DealRecord) (total last24 : Int),
      dealLoop cutoff records total last24 =
        (total + sumRevenue records, last24 + codeLast24 cutoff records) := by
  intro records
  induction records with
  | nil => intro total last24; simp [dealLoop, sumRevenue, codeLast24]
  | cons r rs ih =>
    intro total last24
    simp only [dealLoop, ih, Prod.mk.injEq]
    refine ⟨?_, ?_⟩
    · by_cases h : r.revenue = 0
      · simp [h, sumRevenue]
      · simp only [if_pos h, sumRevenue, List.map_cons, List.sum_cons]
        ring
    · have hcons : codeLast24 cutoff (r :: rs) =
          (if codeLast24Pred cutoff r = true then r.revenue else 0) + codeLast24 cutoff rs := by
        simp only [codeLast24, List.filter_cons]
        split
        · simp [sumRevenue]
        · simp
      rw [hcons]
      rcases hc : r.inContract with _ | p
      · simp [codeLast24Pred, hc]
      · rcases p with _ | t | t
        · simp [codeLast24Pred, hc]
        · by_cases ht : cutoff < t
          · simp only [codeLast24Pred, hc]
            rw [if_pos (decide_eq_true ht), if_pos ht]
            ring
          · simp [codeLast24Pred, hc, ht]
        · simp [codeLast24Pred, hc]

theorem processDealRecords_eq (now : Int) (records : List DealRecord) :
    processDealRecords now records =
      { total_revenue := sumRevenue records
        deal_count := records.length
        last_24h := codeLast24 (now - 86400) records } := by
  simp [processDealRecords, dealLoop_eq]

/-! ### Claims -/

/-- C1 (amended): on a non-200 response or any exception the deal-revenue
fetcher returns the fixed fallback `{162000, 18, 0}`; on a missing
credential it instead returns `{0, 0, 0}` (line 49), not the documented
fallback. -/
theorem claim_C1 :
    (∀ (now : Int) (status : Nat) (records : List DealRecord), status ≠ 200 →
      get_airtable_deal_revenue now (AirtableEnv.response status records) = dealFallback)
    ∧ (∀ now : Int, get_airtable_deal_revenue now AirtableEnv.exception = dealFallback)
    ∧ (∀ now : Int, get_airtable_deal_revenue now AirtableEnv.noToken =
        { total_revenue := 0, deal_count := 0, last_24h := 0 }) := by
  refine ⟨?_, fun _ => rfl, fun _ => rfl⟩
  intro now status records h
  simp [get_airtable_deal_revenue, h]

/-- Witness for C1 at a concrete HTTP-500 run, a concrete exception run and
a concrete missing-credential run. -/
theorem claim_C1_witness :
    get_airtable_deal_revenue 0 (AirtableEnv.response 500 []) = dealFallback
    ∧ get_airtable_deal_revenue 0 AirtableEnv.exception = dealFallback
    ∧ get_airtable_deal_revenue 0 AirtableEnv.noToken =
        { total_revenue := 0, deal_count := 0, last_24h := 0 } :=
  ⟨claim_C1.1 0 500 [] (by decide), claim_C1.2.1 0, claim_C1.2.2 0⟩

/-- Counterexample to C1 as stated: on a missing credential the fetcher
returns `{0, 0, 0}`, not the fixed fallback `{162000, 18, 0}`. -/
theorem claim_C1_cex :
    ¬ get_airtable_deal_revenue 0 AirtableEnv.noToken = dealFallback := by
  decide

/-- C2 (amended): on an HTTP-200 run, `total_revenue` is the sum of the
`Revenue` fields of exactly the returned records and `deal_count` their
number, as claimed; `last_24h` is the sum of `Revenue` over exactly the
records whose contract date parses as an offset-naive timestamp strictly
later than fetch time minus 24 hours — offset-aware dates are dropped by
the swallowed comparison error, and future dates are not excluded. -/
theorem claim_C2 (now : Int) (records : List DealRecord) :
    get_airtable_deal_revenue now (AirtableEnv.response 200 records) =
      { total_revenue := sumRevenue records
        deal_count := records.length
        last_24h := codeLast24 (now - 86400) records } := by
  simp [get_airtable_deal_revenue, processDealRecords_eq]

/-- Counterexample to C2 as stated: a single record whose contract date is
offset-aware (a `Z`-suffixed ISO string) one hour before fetch time parses
and falls within 24 hours, so the spec's `last_24h` is its revenue `100`,
but the code's `last_24h` is `0`. -/
theorem claim_C2_cex :
    ¬ (get_airtable_deal_revenue 0 (AirtableEnv.response 200
          [{ revenue := 100, inContract := some (DateParse.aware (-3600)) }])).last_24h =
        specLast24 0 [{ revenue := 100, inContract := some (DateParse.aware (-3600)) }] := by
  decide

/-- C9 (confirmed): a record whose contract date carries a UTC offset never
contributes to `last_24h`, even when that date lies within the last 24
hours of fetch time: appending such a record to any run leaves `last_24h`
unchanged. -/
theorem claim_C9 (now : Int) (records : List DealRecord) (r : DealRecord) (t : Int)
    (haware : r.inContract = some (DateParse.aware t))
    (hafter : now - 86400 < t) (hbefore : t ≤ now) :
    (processDealRecords now (records ++ [r])).last_24h =
      (processDealRecords now records).last_24h := by
  simp [processDealRecords_eq, codeLast24, List.filter_append, sumRevenue,
    List.filter_cons, codeLast24Pred, haware]

/-- Witness for C9: a record with revenue `100` and an offset-aware contract
date one hour before fetch time. -/
theorem claim_C9_witness :
    ((0:Int) - 86400 < -3600 ∧ (-3600:Int) ≤ 0) ∧
      (processDealRecords 0
          [{ revenue := 100, inContract := some (DateParse.aware (-3600)) }]).last_24h =
        (processDealRecords 0 []).last_24h :=
  ⟨⟨by decide, by decide⟩,
    claim_C9 0 [] { revenue := 100, inContract := some (DateParse.aware (-3600)) } (-3600)
      rfl (by decide) (by decide)⟩

theorem loadTasks_mem_source :
    ∀ (ts : List BoardTask) (l : List DashTask), loadTasks ts = Except.ok l →
      ∀ d ∈ l, ∃ t, t ∈ ts ∧ t.archived = false ∧ processTask t = Except.ok d := by
  intro ts
  induction ts with
  | nil =>
    intro l hl d hd
    simp only [loadTasks, Except.ok.injEq] at hl
    subst hl
    simp at hd
  | cons t rest ih =>
    intro l hl d hd
    rcases ha : t.archived with _ | _
    · simp only [loadTasks, ha, Bool.false_eq_true, if_false] at hl
      rcases hp : processTask t with e | d0
      · rw [hp] at hl; cases hl
      · rw [hp] at hl
        rcases hr : loadTasks rest with e | ds
        · rw [hr] at hl; cases hl
        · rw [hr] at hl
          cases hl
          rcases List.mem_cons.mp hd with rfl | hd2
          · exact ⟨t, List.mem_cons_self t rest, ha, hp⟩
          · obtain ⟨t2, ht2, harch, hp2⟩ := ih ds hr d hd2
            exact ⟨t2, List.mem_cons_of_mem _ ht2, harch, hp2⟩
    · simp only [loadTasks, ha, if_true] at hl
      obtain ⟨t2, ht2, harch, hp2⟩ := ih l hl d hd
      exact ⟨t2, List.mem_cons_of_mem _ ht2, harch, hp2⟩

theorem loadTasks_error_of_empty_activity :
    ∀ (ts : List BoardTask) (r : BoardTask), r ∈ ts → r.archived = false →
      r.activity = some [] → ∃ e, loadTasks ts = Except.error e := by
  intro ts
  induction ts with
  | nil => intro r hr; simp at hr
  | cons t rest ih =>
    intro r hr harch hact
    rcases List.mem_cons.mp hr with rfl | hr2
    · have hp : processTask r = Except.error () := by
        simp [processTask, hact]
      simp [loadTasks, harch, hp]
    · obtain ⟨e, he⟩ := ih r hr2 harch hact
      rcases ha : t.archived with _ | _
      · rcases hp : processTask t with e2 | d0
        · exact ⟨e2, by simp [loadTasks, ha, hp]⟩
        · exact ⟨e, by simp [loadTasks, ha, hp, he]⟩
      · exact ⟨e, by simp [loadTasks, ha, he]⟩

theorem loadTasks_length :
    ∀ (ts : List BoardTask) (l : List DashTask), loadTasks ts = Except.ok l →
      l.length = (ts.filter (fun t => !t.archived)).length := by
  intro ts
  induction ts with
  | nil =>
    intro l hl
    simp only [loadTasks, Except.ok.injEq] at hl
    subst hl
    simp
  | cons t rest ih =>
    intro l hl
    rcases ha : t.archived with _ | _
    · simp only [loadTasks, ha, Bool.false_eq_true, if_false] at hl
      rcases hp : processTask t with e | d0
      · rw [hp] at hl; cases hl
      · rw [hp] at hl
        rcases hr : loadTasks rest with e | ds
        · rw [hr] at hl; cases hl
        · rw [hr] at hl
          cases hl
          simp [List.filter_cons, ha, ih ds hr]
    · simp only [loadTasks, ha, if_true] at hl
      simp [List.filter_cons, ha, ih l hl]

/-- C6 (confirmed): a task whose case-folded title or description contains
a real-estate keyword and also contains a content keyword is assigned to
'Zillow Bot' — the real-estate check runs first and wins. -/
theorem claim_C6 (task : BoardTask)
    (hre : realEstateWords.any (fun w =>
        containsWord w (task.title.map Char.toLower) ||
        containsWord w (task.description.map Char.toLower)) = true)
    (hcontent : contentWords.any (fun w =>
        containsWord w (task.title.map Char.toLower) ||
        containsWord w (task.description.map Char.toLower)) = true) :
    get_assignee_for_task task = "Zillow Bot" := by
  simp only [get_assignee_for_task]
  rw [if_pos hre]

/-- Witness for C6: the spec's example, a task titled
"Write Section 8 listing post" (which contains the real-estate keyword
"section 8" and the content keywords "write" and "post"). -/
theorem claim_C6_witness :
    get_assignee_for_task sectionEightTask = "Zillow Bot" :=
  claim_C6 sectionEightTask (by decide) (by decide)

/-- C8 (confirmed): the output description of a processed task equals the
first 100 characters of the input followed by "..." (length at most 103)
when the input is longer than 100 characters, and the input unchanged
otherwise. -/
theorem claim_C8 (task : BoardTask) (d : DashTask)
    (h : processTask task = Except.ok d) :
    (task.description.length ≤ 100 → d.description = task.description)
    ∧ (100 < task.description.length →
        d.description = task.description.take 100 ++ "...".toList
        ∧ d.description.length ≤ 103) := by
  have hdesc : d.description =
      if task.description.length > 100 then task.description.take 100 ++ "...".toList
      else task.description := by
    rcases hact : task.activity with _ | acts
    · rw [processTask, hact] at h
      cases h
      rfl
    · cases acts with
      | nil => rw [processTask, hact] at h; cases h
      | cons a rest =>
        rw [processTask, hact] at h
        cases h
        rfl
  constructor
  · intro hle
    rw [hdesc, if_neg (by omega)]
  · intro hgt
    rw [hdesc, if_pos hgt]
    refine ⟨rfl, ?_⟩
    have h3 : ("...".toList).length = 3 := rfl
    rw [List.length_append, List.length_take, h3]
    omega

/-- Witness for C8: a task with a 5-character description is passed through
unchanged. -/
theorem claim_C8_witness :
    (mkDashTask sampleShortTask "2026-01-01").description = "short".toList :=
  (claim_C8 sampleShortTask (mkDashTask sampleShortTask "2026-01-01") rfl).1 (by decide)

/-- C7 (confirmed): every task in the loader's output is either the
hardcoded netlify project or the image of a NON-archived board task; no
archived task is ever emitted. -/
theorem claim_C7 (board : BoardFile) (d : DashTask) (hd : d ∈ get_real_tasks board) :
    d = netlifyTask ∨
      ∃ (ts : List BoardTask) (t : BoardTask), board = BoardFile.parsed ts ∧ t ∈ ts ∧
        t.archived = false ∧ processTask t = Except.ok d := by
  cases board with
  | unreadable => simp [get_real_tasks] at hd
  | parsed ts =>
    simp only [get_real_tasks] at hd
    rcases hl : loadTasks ts with e | l
    · rw [hl] at hd; simp at hd
    · rw [hl] at hd
      rcases List.mem_append.mp hd with h | h
      · obtain ⟨t, ht, harch, hp⟩ := loadTasks_mem_source ts l hl d h
        exact Or.inr ⟨ts, t, rfl, ht, harch, hp⟩
      · left
        simpa using h

/-- Witness for C7 on a concrete board. -/
theorem claim_C7_witness :
    mkDashTask sampleShortTask "2026-01-01" ∈ get_real_tasks (BoardFile.parsed [sampleShortTask])
    ∧ (mkDashTask sampleShortTask "2026-01-01" = netlifyTask ∨
        ∃ (ts : List BoardTask) (t : BoardTask),
          BoardFile.parsed [sampleShortTask] = BoardFile.parsed ts ∧ t ∈ ts ∧
          t.archived = false ∧
          processTask t = Except.ok (mkDashTask sampleShortTask "2026-01-01")) :=
  ⟨by decide, claim_C7 (BoardFile.parsed [sampleShortTask])
    (mkDashTask sampleShortTask "2026-01-01") (by decide)⟩

/-- C10 (confirmed): a board that parses but contains a non-archived task
whose `activity` field is an empty list makes the loader return the empty
task list — the IndexError from `[-1]` is caught by the fail-soft handler
and every task in the file is discarded. -/
theorem claim_C10 (ts : List BoardTask) (r : BoardTask)
    (hr : r ∈ ts) (harch : r.archived = false) (hact : r.activity = some []) :
    get_real_tasks (BoardFile.parsed ts) = [] := by
  obtain ⟨e, he⟩ := loadTasks_error_of_empty_activity ts r hr harch hact
  simp [get_real_tasks, he]

/-- Witness for C10: a two-task board whose first task is fine and whose
second task has an empty `activity` list loses both tasks. -/
theorem claim_C10_witness :
    emptyActivityTask ∈ [sampleShortTask, emptyActivityTask] ∧
      get_real_tasks (BoardFile.parsed [sampleShortTask, emptyActivityTask]) = [] :=
  ⟨by decide, claim_C10 [sampleShortTask, emptyActivityTask] emptyActivityTask
    (by decide) rfl rfl⟩

/-- C3 (amended): for a board file with exactly 3 non-archived tasks and 1
archived task that processes without error, the snapshot's `tasks` array
has length exactly 4 — the 3 board tasks PLUS the hardcoded
'Off-Market Deals Website' entry appended at lines 157-168 — and
`lastUpdated` (always a valid ISO string, produced by `isoformat()`) is no
older than the run's start time. -/
theorem claim_C3 (ts : List BoardTask) (l : List DashTask)
    (deal : AirtableEnv) (tiller : TillerEnv) (hour : Nat) (recentResponses coin : Bool)
    (now start nowLast : Int)
    (hok : loadTasks ts = Except.ok l)
    (h3 : (ts.filter (fun t => !t.archived)).length = 3)
    (h1 : (ts.filter (fun t => t.archived)).length = 1)
    (hmono : start ≤ nowLast) :
    (generate_dashboard_data (BoardFile.parsed ts) deal tiller hour recentResponses coin
        now nowLast).tasks.length = 4
    ∧ start ≤ (generate_dashboard_data (BoardFile.parsed ts) deal tiller hour recentResponses
        coin now nowLast).lastUpdated := by
  refine ⟨?_, hmono⟩
  have hlen := loadTasks_length ts l hok
  simp [generate_dashboard_data, get_real_tasks, hok, hlen, h3]

/-- Witness for C3 on a concrete 3-plus-1 board. -/
theorem claim_C3_witness :
    (generate_dashboard_data (BoardFile.parsed sampleBoardTasks) AirtableEnv.noToken
        TillerEnv.noToken 12 false false 0 0).tasks.length = 4
    ∧ (0:Int) ≤ (generate_dashboard_data (BoardFile.parsed sampleBoardTasks) AirtableEnv.noToken
        TillerEnv.noToken 12 false false 0 0).lastUpdated :=
  claim_C3 sampleBoardTasks sampleDashTasks AirtableEnv.noToken TillerEnv.noToken 12 false false
    0 0 0 rfl (by decide) (by decide) (by decide)

/-- Counterexample to C3 as stated: on the same 3-plus-1 board the `tasks`
array has length 4, not 3, because of the appended hardcoded project. -/
theorem claim_C3_cex :
    ¬ (generate_dashboard_data (BoardFile.parsed sampleBoardTasks) AirtableEnv.noToken
        TillerEnv.noToken 12 false false 0 0).tasks.length = 3 := by
  decide

theorem parseTxnRow_timestamp (cutoff : Int) (row : SheetRow) (x : Txn)
    (h : parseTxnRow cutoff row = some x) : cutoff < x.timestamp := by
  unfold parseTxnRow at h
  split at h
  · split at h
    · cases h
    · cases h
    · rename_i t
      split at h
      · cases h
        assumption
      · cases h
    · rename_i a t
      split at h
      · cases h
        assumption
      · cases h
  · cases h

/-- C4 (amended): on an HTTP-200 run the returned transaction list has
length at most 50 and is sorted in non-strictly descending order of parsed
timestamp (Python's stable sort keeps ties in row order, so strictness
fails on equal dates), and every included transaction's parsed date is
strictly later than fetch time minus 7 days (the code enforces no upper
bound, so future-dated rows are included). -/
theorem claim_C4 (now : Int) (rows : List SheetRow) :
    get_tiller_financial_data now (TillerEnv.response 200 rows) =
      FinancialData.live (tillerTransactions now rows)
    ∧ (tillerTransactions now rows).length ≤ 50
    ∧ (tillerTransactions now rows).Pairwise byTimestampDesc
    ∧ ∀ x ∈ tillerTransactions now rows, now - 604800 < x.timestamp := by
  refine ⟨rfl, ?_, ?_, ?_⟩
  · exact List.length_take_le _ _
  · exact List.Pairwise.sublist (List.take_sublist _ _)
      (List.sorted_insertionSort byTimestampDesc _)
  · intro x hx
    have hx2 : x ∈ List.insertionSort byTimestampDesc
        (rows.filterMap (parseTxnRow (now - 604800))) := List.take_subset _ _ hx
    have hx3 : x ∈ rows.filterMap (parseTxnRow (now - 604800)) :=
      (List.perm_insertionSort byTimestampDesc _).mem_iff.mp hx2
    obtain ⟨row, _, hrow⟩ := List.mem_filterMap.mp hx3
    exact parseTxnRow_timestamp _ _ _ hrow

/-- Witness for C4: with the single row `sampleRow` the produced
transaction is in the list and its timestamp is after the cutoff. -/
theorem claim_C4_witness :
    (0:Int) - 604800 <
      (Txn.mk "10/11/2026" 5 "Coffee" "Checking" "Food" (-100)).timestamp :=
  (claim_C4 0 [sampleRow]).2.2.2
    (Txn.mk "10/11/2026" 5 "Coffee" "Checking" "Food" (-100)) (by decide)

/-- Counterexample to C4 as stated: two rows with the same date break
strict descending order, and a future-dated row is included though it does
not fall within 7 days of fetch time. -/
theorem claim_C4_cex :
    ¬ ((tillerTransactions 0 [sampleRow, sampleRowTie, futureRow]).Pairwise
          (fun a b => b.timestamp < a.timestamp)
      ∧ ∀ x ∈ tillerTransactions 0 [sampleRow, sampleRowTie, futureRow],
          (0:Int) - 604800 ≤ x.timestamp ∧ x.timestamp ≤ 0) := by
  decide

/-- C5 (amended): the activity list is ordered newest-first at every
adjacent pair EXCEPT the pair at positions 2 and 3, where the EMAIL entry
(7 minutes old) precedes the strictly newer SYSTEM entry (2 minutes old). -/
theorem claim_C5 (now : Int) (env : AirtableEnv) (i : Nat) (a b : Int)
    (hne : i ≠ 2)
    (ha : ((get_live_activities now env).map Activity.timestamp).get? i = some a)
    (hb : ((get_live_activities now env).map Activity.timestamp).get? (i + 1) = some b) :
    b ≤ a := by
  have hmap : (get_live_activities now env).map Activity.timestamp =
      [now, now - 180, now - 420, now - 120, now - 300, now - 720, now - 1080,
        now - 3600, now - 7200, now - 10800, now - 14400] := rfl
  rw [hmap] at ha hb
  obtain ⟨hlt, -⟩ := List.get?_eq_some.mp hb
  simp only [List.length_cons, List.length_nil] at hlt
  have hle : i ≤ 9 := by omega
  interval_cases i <;> simp_all <;> omega

/-- Witness for C5: the first adjacent pair (REVENUE at `now`, SMS at
`now - 3 min`) is in newest-first order. -/
theorem claim_C5_witness : (0:Int) - 180 ≤ 0 :=
  claim_C5 0 AirtableEnv.noToken 0 0 (0 - 180) (by decide) rfl rfl

/-- Counterexample to C5 as stated: the timestamps of the synthesized list
are not adjacentwise newest-first — the EMAIL entry at position 2 is older
than the SYSTEM entry at position 3. -/
theorem claim_C5_cex :
    ¬ ∀ (i : Nat) (a b : Int),
        ((get_live_activities 0 AirtableEnv.noToken).map Activity.timestamp).get? i = some a →
        ((get_live_activities 0 AirtableEnv.noToken).map Activity.timestamp).get? (i + 1) =
          some b →
        b ≤ a := by
  intro h
  have h23 := h 2 (0 - 420) (0 - 120) rfl rfl
  omega
